import Mathlib

/-!
# Verification of the Marketring topic-queue router

A shallow embedding of `src/router.py`: a Kafka-to-SQS routing Lambda that
decodes base64/JSON records, classifies each message into SMALL/MEDIUM/LARGE
by an application-count threshold ladder, groups messages by category,
chunks each group into batches of at most 10, and sends the batches,
aggregating per-batch success into an overall result.

Python dynamic values are modelled by the inductive `Value`; Python
exceptions by `Except PyError`; the observability surface (structured logs
and the RouterMetrics counters) by a trace of `Obs` values.  The external
collaborators (the base64/UTF-8/JSON decoding chain and the SQS client) are
parameters of the functions that call them, as the spec treats them as
collaborators.
-/

/-- A JSON-compatible Python value: `None`, bool, int, str, list, dict.
Dicts are association lists in insertion order, as in CPython. -/
inductive Value where
  | vNull
  | vBool (b : Bool)
  | vInt (n : Int)
  | vStr (s : String)
  | vList (items : List Value)
  | vDict (entries : List (String × Value))

/-- Python exceptions that the router can raise. -/
inductive PyError where
  | attributeError (msg : String)
  | typeError (msg : String)
  deriving DecidableEq

/-- `str(e)` for an exception: the description carried into the failure
response by the top-level handler. -/
def PyError.describe : PyError → String
  | .attributeError m => m
  | .typeError m => m

/-- One element of the observability trace: a structured-log emission or a
RouterMetrics counter (`record_message_processed`, `record_routing_error`,
`record_batch_size`), plus the actual SQS send call. -/
inductive Obs where
  | logDebug
  | logInfo
  | logWarning
  | logError
  | metricProcessed (queue_type : String)
  | metricError (error_type : String)
  | metricBatchSize (size : Nat)
  | sqsSend (queue_url : String)
  deriving DecidableEq

/-- Python truthiness (`if v:`). -/
def vTruthy : Value → Bool
  | .vNull => false
  | .vBool b => b
  | .vInt n => n != 0
  | .vStr s => s != ""
  | .vList items => !items.isEmpty
  | .vDict entries => !entries.isEmpty

/-- First entry with the given key in a dict association list
(CPython dict lookup). -/
def lookupEntry (entries : List (String × Value)) (key : String) : Option Value :=
  (entries.find? (fun p => p.1 == key)).map (fun p => p.2)

/-- `d[key] = val`: overwrite the first entry with that key in place, or
append a new entry (CPython preserves insertion order on overwrite). -/
def setEntry : List (String × Value) → String → Value → List (String × Value)
  | [], key, val => [(key, val)]
  | (k, v) :: rest, key, val =>
    if k == key then (k, val) :: rest else (k, v) :: setEntry rest key val

/-- `obj.get(key, default)`: raises `AttributeError` on a non-dict. -/
def pyGetD (v : Value) (key : String) (dflt : Value) : Except PyError Value :=
  match v with
  | .vDict entries => .ok ((lookupEntry entries key).getD dflt)
  | _ => .error (.attributeError "object has no attribute get")

/-- `obj.get(key)` (default `None`). -/
def pyGet (v : Value) (key : String) : Except PyError Value :=
  pyGetD v key .vNull

/-- `obj[key] = val`: raises `TypeError` on a non-dict. -/
def pySet (v : Value) (key : String) (val : Value) : Except PyError Value :=
  match v with
  | .vDict entries => .ok (.vDict (setEntry entries key val))
  | _ => .error (.typeError "object does not support item assignment")

/-- `len(v)`: defined for str, list and dict; `TypeError` otherwise. -/
def pyLen : Value → Except PyError Nat
  | .vStr s => .ok s.length
  | .vList items => .ok items.length
  | .vDict entries => .ok entries.length
  | _ => .error (.typeError "object has no len")

/-- `v.items()`: only dicts have it. -/
def pyItems : Value → Except PyError (List (String × Value))
  | .vDict entries => .ok entries
  | _ => .error (.attributeError "object has no attribute items")

/-- `for x in v`: lists yield elements, strings yield one-character strings,
dicts yield their keys; other values raise `TypeError`. -/
def pyIterate : Value → Except PyError (List Value)
  | .vList items => .ok items
  | .vStr s => .ok (s.toList.map (fun c => .vStr (String.singleton c)))
  | .vDict entries => .ok (entries.map (fun p => .vStr p.1))
  | _ => .error (.typeError "object is not iterable")

/-- `v <= k` against an int literal: ints and bools compare (bool is an int
in Python); any other operand raises `TypeError`. -/
def pyLeInt (v : Value) (k : Int) : Except PyError Bool :=
  match v with
  | .vInt n => .ok (decide (n ≤ k))
  | .vBool b => .ok (decide ((if b then (1 : Int) else 0) ≤ k))
  | _ => .error (.typeError "comparison not supported between these types")

/-- The three destination addresses resolved from the environment at process
start; modelled as distinct abstract strings. -/
def SMALL_QUEUE_URL : String := "SMALL_QUEUE_URL"

/-- Destination address for MEDIUM (environment-resolved, abstract). -/
def MEDIUM_QUEUE_URL : String := "MEDIUM_QUEUE_URL"

/-- Destination address for LARGE (environment-resolved, abstract). -/
def LARGE_QUEUE_URL : String := "LARGE_QUEUE_URL"

/-- `QUEUE_MAPPINGS[queue_type]`: category name to destination address. -/
def QUEUE_MAPPINGS (queue_type : String) : String :=
  if queue_type == "SMALL" then SMALL_QUEUE_URL
  else if queue_type == "MEDIUM" then MEDIUM_QUEUE_URL
  else LARGE_QUEUE_URL

/-- `queue_type in QUEUE_MAPPINGS`: dict-key membership.  The dict keys are
the three category strings; hashable non-keys (None, bool, int, other
strings) test False, but CPython hashes the candidate key first, so a list
or dict operand raises `TypeError: unhashable type`. -/
def pyInQueueMappings : Value → Except PyError Bool
  | .vStr s => .ok (s == "SMALL" || s == "MEDIUM" || s == "LARGE")
  | .vList _ => .error (.typeError "unhashable type")
  | .vDict _ => .error (.typeError "unhashable type")
  | _ => .ok false

/-- The short-circuit conjunction `queue_type and queue_type in
QUEUE_MAPPINGS` of router.py line 104: a falsy operand short-circuits to
false before the membership test, so only a truthy operand can raise. -/
def qtMembershipCheck (queue_type : Value) : Except PyError Bool :=
  if vTruthy queue_type then pyInQueueMappings queue_type else .ok false

/-- Extract the category string from a value known to be a mappings key. -/
def valueAsQueueType : Value → String
  | .vStr s => s
  | _ => ""

/-- Line 108 of `router.py`:
`message.get('applicationCount', message.get('NumberOfApplications', 0))`. -/
def appCount (message : Value) : Except PyError Value :=
  match pyGetD message "NumberOfApplications" (.vInt 0) with
  | .error e => .error e
  | .ok inner => pyGetD message "applicationCount" inner

/-- `determine_queue_type` (router.py lines 92-115): authoritative
pass-through of a known `queueType`, else the threshold ladder on the
application count.  Raises (returns `.error`) when the membership test
gets a truthy unhashable `queueType`, or when the count value does not
support integer comparison. -/
def determine_queue_type (message : Value) : Except PyError String :=
  match pyGet message "queueType" with
  | .error e => .error e
  | .ok queue_type =>
    match qtMembershipCheck queue_type with
    | .error e => .error e
    | .ok true => .ok (valueAsQueueType queue_type)
    | .ok false =>
      match appCount message with
      | .error e => .error e
      | .ok app_count =>
        match pyLeInt app_count 50 with
        | .error e => .error e
        | .ok true => .ok "SMALL"
        | .ok false =>
          match pyLeInt app_count 200 with
          | .error e => .error e
          | .ok true => .ok "MEDIUM"
          | .ok false => .ok "LARGE"

/-- `parse_kafka_message` (router.py lines 56-89).  The base64 / UTF-8 /
JSON decoding chain (`base64.b64decode`, `bytes.decode`, `json.loads`) is an
external collaborator, passed in as `decode`.  The whole body runs inside a
try/except: any exception yields `None` plus an error log and one
`parse_error` routing-error metric; an empty or absent `value` yields `None`
plus a warning log only. -/
def parse_kafka_message (decode : String → Except PyError Value)
    (record : Value) : Option Value × List Obs :=
  match pyGetD record "value" (.vStr "") with
  | .error _ => (none, [.logError, .metricError "parse_error"])
  | .ok encoded_value =>
    if !vTruthy encoded_value then
      (none, [.logWarning])
    else
      match encoded_value with
      | .vStr s =>
        match decode s with
        | .ok message_data => (some message_data, [.logDebug])
        | .error _ => (none, [.logError, .metricError "parse_error"])
      | _ => (none, [.logError, .metricError "parse_error"])

/-- One prepared SQS batch entry (router.py lines 131-146): index id, the
message body, and the two sideband attributes.  `queueType` is attached raw;
`productId` is passed through `str`. -/
structure SqsEntry where
  id : String
  messageBody : Value
  attrQueueType : Value
  attrProductId : Value

/-- Build the batch entries for `send_message_batch`; raises if a message is
not a dict (its `.get` would raise). -/
def mkEntries (messages : List Value) : Except PyError (List SqsEntry) :=
  (messages.enum).mapM (fun p => do
    let qt ← pyGetD p.2 "queueType" (.vStr "UNKNOWN")
    let pid ← pyGetD p.2 "productId" (.vStr "unknown")
    pure { id := toString p.1, messageBody := p.2, attrQueueType := qt, attrProductId := pid })

/-- Outcome of one `sqs_client.send_message_batch` call, as reported by the
destination collaborator: a response with a (possibly empty) `Failed` list,
or a raised exception. -/
inductive SqsOutcome where
  | resp (failed : List String)
  | raise

/-- The destination queueing collaborator: outcome of a batch send to a
queue URL. -/
def SqsOracle : Type := String → List SqsEntry → SqsOutcome

/-- `send_to_sqs_batch` (router.py lines 118-176): prepare entries, send,
and report `True` only when the response carries no failed items.  All
exceptions are caught and mapped to `False` with an `sqs_send_error`
metric; a non-empty `Failed` list maps to `False` with an
`sqs_batch_failure` metric. -/
def send_to_sqs_batch (sqs : SqsOracle) (messages : List Value)
    (queue_url : String) : Bool × List Obs :=
  match mkEntries messages with
  | .error _ => (false, [.logError, .metricError "sqs_send_error"])
  | .ok entries =>
    match sqs queue_url entries with
    | .raise => (false, [.sqsSend queue_url, .logError, .metricError "sqs_send_error"])
    | .resp failed =>
      if !failed.isEmpty then
        (false, [.sqsSend queue_url, .logError, .metricError "sqs_batch_failure"])
      else
        (true, [.sqsSend queue_url, .logInfo])

/-- The per-category grouping result (router.py line 189): the dict
`{'SMALL': [], 'MEDIUM': [], 'LARGE': []}` with its fixed key set. -/
structure Grouped where
  small : List Value := []
  medium : List Value := []
  large : List Value := []

/-- `grouped_messages[queue_type].append(message)` for a known category. -/
def addToGroup (g : Grouped) (queue_type : String) (message : Value) : Grouped :=
  if queue_type == "SMALL" then { g with small := g.small ++ [message] }
  else if queue_type == "MEDIUM" then { g with medium := g.medium ++ [message] }
  else { g with large := g.large ++ [message] }

/-- `queue_type in grouped_messages`. -/
def inGrouped (queue_type : String) : Bool :=
  queue_type == "SMALL" || queue_type == "MEDIUM" || queue_type == "LARGE"

/-- The loop body of `route_messages_by_queue_type` (router.py lines
191-200), threading the groups and the observation trace; an exception from
classification aborts the loop (it propagates to the handler) but the
observations already emitted remain. -/
def routeLoop : List Value → Grouped → List Obs → Except PyError Grouped × List Obs
  | [], g, obs => (.ok g, obs)
  | message :: rest, g, obs =>
    match determine_queue_type message with
    | .error e => (.error e, obs)
    | .ok queue_type =>
      if queue_type != "" && inGrouped queue_type then
        match pySet message "queueType" (.vStr queue_type) with
        | .error e => (.error e, obs)
        | .ok tagged =>
          routeLoop rest (addToGroup g queue_type tagged) (obs ++ [.metricProcessed queue_type])
      else
        routeLoop rest g (obs ++ [.logWarning, .metricError "undetermined_queue_type"])

/-- `route_messages_by_queue_type` (router.py lines 179-202). -/
def route_messages_by_queue_type (parsed_messages : List Value) :
    Except PyError Grouped × List Obs :=
  routeLoop parsed_messages {} []

/-- `BATCH_SIZE = 10` (router.py line 35). -/
def BATCH_SIZE : Nat := 10

/-- Recursion core of the slicing loop, structurally recursive on a fuel
bound; the loop index of the Python `range` advances by `BATCH_SIZE` per
step, so `messages.length` steps always suffice. -/
def sliceGo : Nat → List Value → List (List Value)
  | _, [] => []
  | 0, _ :: _ => []
  | fuel + 1, m :: rest =>
    (m :: rest).take BATCH_SIZE :: sliceGo fuel ((m :: rest).drop BATCH_SIZE)

/-- The slicing loop `messages[i:i + BATCH_SIZE] for i in
range(0, len(messages), BATCH_SIZE)` (router.py lines 227-228). -/
def sliceBatches (messages : List Value) : List (List Value) :=
  sliceGo messages.length messages

/-- The futures submitted for one category (router.py lines 220-230):
nothing for an empty category, else one task per slice, bound to the
category's queue URL. -/
def submissionsFor (queue_type : String) (messages : List Value) :
    List (String × List Value) :=
  if messages.isEmpty then []
  else (sliceBatches messages).map (fun batch => (QUEUE_MAPPINGS queue_type, batch))

/-- All submitted (queue URL, batch) tasks, in dict insertion order
SMALL, MEDIUM, LARGE. -/
def submissions (g : Grouped) : List (String × List Value) :=
  submissionsFor "SMALL" g.small ++ submissionsFor "MEDIUM" g.medium ++
    submissionsFor "LARGE" g.large

/-- Whether `future.result(timeout=30)` for the task on this (queue URL,
batch) raises a timeout: a property of the environment, supplied as an
oracle. -/
def TimeoutOracle : Type := String → List Value → Bool

/-- The await loop of `send_batches_concurrently` (router.py lines
233-247): every submitted future is awaited in turn; a timeout is caught
and recorded as a `concurrent_send_error`; a successful batch records its
batch size; any failure clears `all_successful` without stopping the
loop. -/
def awaitLoop (sqs : SqsOracle) (tmo : TimeoutOracle) :
    List (String × List Value) → Bool → List Obs → Bool × List Obs
  | [], all_successful, obs => (all_successful, obs)
  | (queue_url, batch) :: rest, all_successful, obs =>
    if tmo queue_url batch then
      awaitLoop sqs tmo rest false (obs ++ [.logError, .metricError "concurrent_send_error"])
    else
      let r := send_to_sqs_batch sqs batch queue_url
      if r.1 then
        awaitLoop sqs tmo rest all_successful (obs ++ r.2 ++ [.metricBatchSize batch.length])
      else
        awaitLoop sqs tmo rest false (obs ++ r.2)

/-- `send_batches_concurrently` (router.py lines 205-249): submit one task
per batch of each non-empty category, await them all, and return the
conjunction of their outcomes. -/
def send_batches_concurrently (sqs : SqsOracle) (tmo : TimeoutOracle)
    (grouped_messages : Grouped) : Bool × List Obs :=
  awaitLoop sqs tmo (submissions grouped_messages) true []

/-- The per-category counts of the final response (router.py lines
312-316). -/
structure QueueDistribution where
  small : Nat
  medium : Nat
  large : Nat
  deriving DecidableEq

/-- The handler's return dict.  Python returns dicts with different key
sets; an absent key is `none`. -/
structure Response where
  statusCode : Nat
  processedMessages : Option Nat := none
  queueDistribution : Option QueueDistribution := none
  error : Option String := none
  deriving DecidableEq

/-- Parse every record of the event's partition lists in order (router.py
lines 283-286), keeping the successfully decoded messages. -/
def parseList (decode : String → Except PyError Value) :
    List Value → List Value × List Obs
  | [] => ([], [])
  | record :: rest =>
    let r := parse_kafka_message decode record
    let rr := parseList decode rest
    (match r.1 with
     | some message => message :: rr.1
     | none => rr.1, r.2 ++ rr.2)

/-- The partition loop of the decode phase (router.py lines 276-286): for
each partition, `len(records)` is evaluated (raising on unsized values),
then each record is parsed.  An exception aborts the loop but already
emitted observations remain. -/
def parseRecords (decode : String → Except PyError Value) :
    List (String × Value) → Except PyError (List Value) × List Obs
  | [] => (.ok [], [])
  | (_, records) :: rest =>
    match pyLen records with
    | .error e => (.error e, [])
    | .ok _ =>
      match pyIterate records with
      | .error e => (.error e, [.logDebug])
      | .ok items =>
        let pr := parseList decode items
        match parseRecords decode rest with
        | (.ok parsed, obs) => (.ok (pr.1 ++ parsed), [.logDebug] ++ pr.2 ++ obs)
        | (.error e, obs) => (.error e, [.logDebug] ++ pr.2 ++ obs)

/-- The body of the try block of `lambda_handler` (router.py lines
266-320): decode all records, short-circuit when nothing decoded, group,
dispatch, and build the summary response.  Any `.error` is the exception
that reaches the top-level except. -/
def handlerBody (decode : String → Except PyError Value) (sqs : SqsOracle)
    (tmo : TimeoutOracle) (event : Value) : Except PyError Response × List Obs :=
  match pyGetD event "records" (.vDict []) with
  | .error e => (.error e, [])
  | .ok records =>
    match pyLen records with
    | .error e => (.error e, [])
    | .ok _ =>
      match pyItems records with
      | .error e => (.error e, [.logInfo])
      | .ok partitions =>
        match parseRecords decode partitions with
        | (.error e, obs) => (.error e, [.logInfo] ++ obs)
        | (.ok parsed_messages, obsP) =>
          let obs1 := [.logInfo] ++ obsP ++ [.logInfo]
          if parsed_messages.isEmpty then
            (.ok { statusCode := 200, processedMessages := some 0 }, obs1 ++ [.logWarning])
          else
            match route_messages_by_queue_type parsed_messages with
            | (.error e, obsR) => (.error e, obs1 ++ obsR)
            | (.ok grouped_messages, obsR) =>
              let sb := send_batches_concurrently sqs tmo grouped_messages
              let response : Response :=
                { statusCode := if sb.1 then 200 else 500
                  processedMessages := some parsed_messages.length
                  queueDistribution := some
                    { small := grouped_messages.small.length
                      medium := grouped_messages.medium.length
                      large := grouped_messages.large.length } }
              (.ok response, obs1 ++ obsR ++ [.logInfo] ++ sb.2 ++ [.logInfo])

/-- `lambda_handler` (router.py lines 255-328): the try/except wrapper.
Every exception escaping the three phases is converted to a
`{statusCode: 500, error: str(e)}` response with a `handler_error`
metric. -/
def lambda_handler (decode : String → Except PyError Value) (sqs : SqsOracle)
    (tmo : TimeoutOracle) (event : Value) : Response × List Obs :=
  match handlerBody decode sqs tmo event with
  | (.ok response, obs) => (response, obs)
  | (.error e, obs) =>
    ({ statusCode := 500, error := some e.describe },
      obs ++ [.logError, .metricError "handler_error"])

/-! ## Statement-level definitions -/

/-- The closed category enumeration. -/
def knownCategories : List String := ["SMALL", "MEDIUM", "LARGE"]

/-- The `queueType` field of a message, when the message is a dict that has
one. -/
def lookupQT (message : Value) : Option Value :=
  match message with
  | .vDict entries => lookupEntry entries "queueType"
  | _ => none

/-- Whether the message carries an authoritative `queueType`: the field is
present and equal to one of the three known categories. -/
def knownQT (message : Value) : Bool :=
  match lookupQT message with
  | some (.vStr s) => decide (s ∈ knownCategories)
  | _ => false

/-- Whether the message's `queueType` value survives the membership test
without raising: it is absent, falsy, or hashable.  A truthy list or dict
would raise `TypeError: unhashable type` at `queue_type in QUEUE_MAPPINGS`. -/
def qtSafe (message : Value) : Bool :=
  match lookupQT message with
  | some (.vList items) => items.isEmpty
  | some (.vDict entries) => entries.isEmpty
  | _ => true

/-- The hypothesis under which classification cannot raise: an
authoritative known `queueType`, or a membership-safe `queueType` value
together with a count value that supports integer comparison (an int, or a
bool, which is an int in Python). -/
def classifiable (message : Value) : Prop :=
  knownQT message = true ∨
    (qtSafe message = true ∧
      ((∃ n : Int, appCount message = .ok (.vInt n)) ∨
       (∃ b : Bool, appCount message = .ok (.vBool b))))

/-- Number of observations in a trace satisfying a predicate. -/
def obsCount (p : Obs → Bool) (obs : List Obs) : Nat :=
  (obs.filter p).length

/-- An actual SQS send call. -/
def isSendObs : Obs → Bool
  | .sqsSend _ => true
  | _ => false

/-- A `record_batch_size` metric. -/
def isBatchSizeObs : Obs → Bool
  | .metricBatchSize _ => true
  | _ => false

/-- A `record_message_processed` metric. -/
def isProcessedObs : Obs → Bool
  | .metricProcessed _ => true
  | _ => false

/-- A `record_routing_error` metric (any failure kind). -/
def isRoutingErrorObs : Obs → Bool
  | .metricError _ => true
  | _ => false

/-- The defensive `undetermined_queue_type` routing error. -/
def isUndeterminedObs : Obs → Bool
  | .metricError t => t == "undetermined_queue_type"
  | _ => false

/-- A routing error recorded for one failed dispatch task. -/
def isTaskFailObs : Obs → Bool
  | .metricError t =>
    t == "sqs_send_error" || t == "sqs_batch_failure" || t == "concurrent_send_error"
  | _ => false

/-- Whether one submitted (queue URL, batch) task succeeds: its
`future.result` does not time out and `send_to_sqs_batch` returns
`True`. -/
def taskOk (sqs : SqsOracle) (tmo : TimeoutOracle) (sub : String × List Value) : Bool :=
  !tmo sub.1 sub.2 && (send_to_sqs_batch sqs sub.2 sub.1).1

/-! ## Concrete fixtures for witnesses and counterexamples -/

/-- A concrete decode collaborator: two known encoded payloads, everything
else fails to decode. -/
def decodeFix : String → Except PyError Value := fun s =>
  if s == "ENC75" then
    .ok (.vDict [("productId", .vInt 123), ("applicationCount", .vInt 75)])
  else if s == "ENCBAD" then
    .ok (.vDict [("applicationCount", .vStr "lots")])
  else .error (.typeError "invalid base64")

/-- A destination collaborator that accepts every batch. -/
def sqsAllOk : SqsOracle := fun _ _ => .resp []

/-- A destination collaborator that reports a failed item in every batch. -/
def sqsAllFail : SqsOracle := fun _ _ => .resp ["0"]

/-- No send task ever times out. -/
def tmoNone : TimeoutOracle := fun _ _ => false

/-- An event with one partition holding one well-formed record. -/
def eventOne : Value :=
  .vDict [("records", .vDict [("p-0", .vList [.vDict [("value", .vStr "ENC75")]])])]

/-- An event whose records map is empty. -/
def eventEmpty : Value := .vDict [("records", .vDict [])]

/-- An event with one record decoding to a message with a non-numeric
applicationCount. -/
def eventBad : Value :=
  .vDict [("records", .vDict [("p-0", .vList [.vDict [("value", .vStr "ENCBAD")]])])]

/-- An event whose partition holds one well-formed record and one record
decoding to a message with a non-numeric applicationCount. -/
def eventMixed : Value :=
  .vDict [("records", .vDict [("p-0", .vList
    [.vDict [("value", .vStr "ENC75")], .vDict [("value", .vStr "ENCBAD")]])])]

/-- Total number of grouped messages across the three categories. -/
def gsize (g : Grouped) : Nat :=
  g.small.length + g.medium.length + g.large.length

/-- Every grouped message carries the canonical category in its
`queueType` field. -/
def groupsTagged (g : Grouped) : Prop :=
  (∀ m ∈ g.small, lookupQT m = some (.vStr "SMALL")) ∧
  (∀ m ∈ g.medium, lookupQT m = some (.vStr "MEDIUM")) ∧
  (∀ m ∈ g.large, lookupQT m = some (.vStr "LARGE"))

/-- Shape of the decode-phase observations: only logs and `parse_error`
routing errors. -/
def decodeObs (o : Obs) : Prop :=
  o = .logDebug ∨ o = .logWarning ∨ o = .logError ∨ o = .metricError "parse_error"

/-! ## Helper lemmas: classification -/

theorem qtMembershipCheck_ok_true {v : Value}
    (h : qtMembershipCheck v = .ok true) :
    ∃ s, v = .vStr s ∧ s ∈ knownCategories := by
  unfold qtMembershipCheck at h
  split at h
  · cases v <;> simp [pyInQueueMappings] at h
    exact ⟨_, rfl, by simp [knownCategories]; tauto⟩
  · exact absurd h (by simp)

theorem qtMembershipCheck_pass {s : String} (hs : s ∈ knownCategories) :
    qtMembershipCheck (.vStr s) = .ok true := by
  simp [knownCategories] at hs
  rcases hs with h | h | h <;> subst h <;> rfl

theorem determine_ok_mem {m : Value} {s : String}
    (h : determine_queue_type m = .ok s) : s ∈ knownCategories := by
  unfold determine_queue_type at h
  cases m
  case vDict entries =>
    simp only [pyGet, pyGetD] at h
    split at h
    · exact Except.noConfusion h
    · rename_i hchk
      obtain ⟨s0, hv, hmem⟩ := qtMembershipCheck_ok_true hchk
      injection h with h
      rw [← h, hv]
      simpa [valueAsQueueType] using hmem
    · split at h
      · exact Except.noConfusion h
      · split at h
        · exact Except.noConfusion h
        · injection h with h; rw [← h]; simp [knownCategories]
        · split at h
          · exact Except.noConfusion h
          · injection h with h; rw [← h]; simp [knownCategories]
          · injection h with h; rw [← h]; simp [knownCategories]
  all_goals simp [pyGet, pyGetD] at h

theorem check_false_of_not_known {entries : List (String × Value)}
    (hk : knownQT (.vDict entries) = false)
    (hq : qtSafe (.vDict entries) = true) :
    qtMembershipCheck ((lookupEntry entries "queueType").getD .vNull) =
      .ok false := by
  simp only [knownQT, lookupQT] at hk
  simp only [qtSafe, lookupQT] at hq
  cases hl : lookupEntry entries "queueType" with
  | none => simp [qtMembershipCheck, vTruthy]
  | some v =>
    rw [hl] at hk hq
    cases v with
    | vNull => simp [qtMembershipCheck, vTruthy]
    | vBool b => cases b <;> simp [qtMembershipCheck, vTruthy, pyInQueueMappings]
    | vInt n =>
      unfold qtMembershipCheck
      split <;> simp [pyInQueueMappings]
    | vStr s =>
      simp at hk
      unfold qtMembershipCheck
      split
      · simp [knownCategories] at hk
        simp [pyInQueueMappings, hk.1, hk.2.1, hk.2.2]
      · rfl
    | vList items => simp_all [qtMembershipCheck, vTruthy]
    | vDict es => simp_all [qtMembershipCheck, vTruthy]

theorem determine_pass {entries : List (String × Value)} {s : String}
    (hl : lookupEntry entries "queueType" = some (.vStr s))
    (hs : s ∈ knownCategories) : determine_queue_type (.vDict entries) = .ok s := by
  unfold determine_queue_type
  simp [pyGet, pyGetD, hl, qtMembershipCheck_pass hs, valueAsQueueType]

theorem determine_of_knownQT {m : Value} (h : knownQT m = true) :
    ∃ s, determine_queue_type m = .ok s := by
  cases m <;> simp [knownQT, lookupQT] at h
  case vDict entries =>
    cases hl : lookupEntry entries "queueType" with
    | none => rw [hl] at h; exact absurd h (by simp)
    | some v =>
      rw [hl] at h
      cases v <;> simp at h
      case vStr s => exact ⟨s, determine_pass hl (by simpa using h)⟩

theorem determine_fallback_int {entries : List (String × Value)} {n : Int}
    (hk : knownQT (.vDict entries) = false)
    (hq : qtSafe (.vDict entries) = true)
    (hc : appCount (.vDict entries) = .ok (.vInt n)) :
    determine_queue_type (.vDict entries) =
      .ok (if n ≤ 50 then "SMALL" else if n ≤ 200 then "MEDIUM" else "LARGE") := by
  unfold determine_queue_type
  simp only [pyGet, pyGetD, check_false_of_not_known hk hq, hc, pyLeInt]
  by_cases h1 : n ≤ 50 <;> by_cases h2 : n ≤ 200 <;> simp [h1, h2]

theorem determine_fallback_bool {entries : List (String × Value)} {b : Bool}
    (hk : knownQT (.vDict entries) = false)
    (hq : qtSafe (.vDict entries) = true)
    (hc : appCount (.vDict entries) = .ok (.vBool b)) :
    determine_queue_type (.vDict entries) = .ok "SMALL" := by
  unfold determine_queue_type
  simp only [pyGet, pyGetD, check_false_of_not_known hk hq, hc, pyLeInt]
  cases b <;> simp

theorem appCount_ok_dict {m v : Value} (hc : appCount m = .ok v) :
    ∃ entries, m = .vDict entries := by
  cases m <;> simp [appCount, pyGetD] at hc
  exact ⟨_, rfl⟩

theorem determine_total {m : Value} (h : classifiable m) :
    ∃ s, determine_queue_type m = .ok s := by
  rcases h with h | ⟨hq, ⟨n, hc⟩ | ⟨b, hc⟩⟩
  · exact determine_of_knownQT h
  · obtain ⟨entries, rfl⟩ := appCount_ok_dict hc
    cases hk : knownQT (.vDict entries) with
    | true => exact determine_of_knownQT hk
    | false => exact ⟨_, determine_fallback_int hk hq hc⟩
  · obtain ⟨entries, rfl⟩ := appCount_ok_dict hc
    cases hk : knownQT (.vDict entries) with
    | true => exact determine_of_knownQT hk
    | false => exact ⟨_, determine_fallback_bool hk hq hc⟩

/-! ## Claim C1 -/

/-- C1 counterexample: a message whose queueType is a truthy list (not one
of the three categories) and whose applicationCount is 75 falls under the
claim's otherwise-branch, which demands MEDIUM; but the membership test
`queue_type in QUEUE_MAPPINGS` hashes the key and raises
`TypeError: unhashable type`, so classification raises instead of
returning MEDIUM. -/
theorem unhashable_queue_type_raises :
    determine_queue_type
      (.vDict [("queueType", .vList [.vInt 1]), ("applicationCount", .vInt 75)]) =
      .error (.typeError "unhashable type") ∧
    determine_queue_type
      (.vDict [("queueType", .vList [.vInt 1]), ("applicationCount", .vInt 75)]) ≠
      .ok "MEDIUM" := by
  constructor
  · rfl
  · intro h
    rw [show determine_queue_type
        (.vDict [("queueType", .vList [.vInt 1]), ("applicationCount", .vInt 75)]) =
        .error (.typeError "unhashable type") from rfl] at h
    exact Except.noConfusion h

/-- C1 (amended): for every message, if its queueType field is present and
equal to one of SMALL, MEDIUM, LARGE, classification returns that value
unchanged regardless of applicationCount; otherwise — provided the
queueType value is not a truthy list or dict, whose membership test raises
TypeError — with numeric count n read from applicationCount (falling back
to NumberOfApplications, defaulting to 0 when both are absent), it returns
SMALL iff n ≤ 50, MEDIUM iff 51 ≤ n ≤ 200, and LARGE iff n > 200. -/
theorem determine_queue_type_spec (m : Value) :
    (∀ s, lookupQT m = some (.vStr s) → s ∈ knownCategories →
      determine_queue_type m = .ok s) ∧
    (∀ n : Int, knownQT m = false → qtSafe m = true →
      appCount m = .ok (.vInt n) →
      ((determine_queue_type m = .ok "SMALL" ↔ n ≤ 50) ∧
       (determine_queue_type m = .ok "MEDIUM" ↔ (51 ≤ n ∧ n ≤ 200)) ∧
       (determine_queue_type m = .ok "LARGE" ↔ 200 < n))) := by
  constructor
  · intro s hl hs
    cases m <;> simp [lookupQT] at hl
    exact determine_pass hl hs
  · intro n hk hq hc
    have hdict : ∃ entries, m = .vDict entries := by
      cases m <;> simp [appCount, pyGetD] at hc
      exact ⟨_, rfl⟩
    obtain ⟨entries, rfl⟩ := hdict
    rw [determine_fallback_int hk hq hc]
    refine ⟨?_, ?_, ?_⟩ <;>
      by_cases h1 : n ≤ 50 <;> by_cases h2 : n ≤ 200 <;>
        simp [h1, h2] <;> omega

/-- Witness for C1: a message with an authoritative queueType passes
through, and a count of 75 classifies as MEDIUM. -/
theorem determine_queue_type_spec_witness :
    determine_queue_type (.vDict [("queueType", .vStr "LARGE"), ("applicationCount", .vInt 3)]) = .ok "LARGE" ∧
    determine_queue_type (.vDict [("applicationCount", .vInt 75)]) = .ok "MEDIUM" :=
  ⟨(determine_queue_type_spec (.vDict [("queueType", .vStr "LARGE"), ("applicationCount", .vInt 3)])).1
      "LARGE" rfl (by decide),
   ((determine_queue_type_spec (.vDict [("applicationCount", .vInt 75)])).2
      75 rfl rfl rfl).2.1.mpr (by omega)⟩

/-! ## Helper lemmas: batching -/

theorem sliceGo_join {fuel : Nat} {l : List Value} (h : l.length ≤ fuel) :
    (sliceGo fuel l).flatten = l := by
  induction fuel generalizing l with
  | zero =>
    cases l with
    | nil => simp [sliceGo]
    | cons m rest => simp at h
  | succ fuel ih =>
    cases l with
    | nil => simp [sliceGo]
    | cons m rest =>
      simp only [sliceGo, List.flatten_cons]
      rw [ih (by simp [BATCH_SIZE] at h ⊢; omega)]
      exact List.take_append_drop _ _

theorem sliceGo_length {fuel : Nat} {l : List Value} (h : l.length ≤ fuel) :
    (sliceGo fuel l).length = (l.length + 9) / 10 := by
  induction fuel generalizing l with
  | zero =>
    cases l with
    | nil => simp [sliceGo]
    | cons m rest => simp at h
  | succ fuel ih =>
    cases l with
    | nil => simp [sliceGo]
    | cons m rest =>
      simp only [sliceGo, List.length_cons]
      rw [ih (by simp [BATCH_SIZE] at h ⊢; omega)]
      simp only [List.length_drop, List.length_cons, BATCH_SIZE]
      simp at h
      omega

theorem sliceGo_batch_le {fuel : Nat} {l : List Value} :
    ∀ b ∈ sliceGo fuel l, b.length ≤ 10 := by
  induction fuel generalizing l with
  | zero =>
    cases l <;> simp [sliceGo]
  | succ fuel ih =>
    cases l with
    | nil => simp [sliceGo]
    | cons m rest =>
      intro b hb
      simp only [sliceGo, List.mem_cons] at hb
      rcases hb with hb | hb
      · rw [hb]
        exact List.length_take_le _ _
      · exact ih b hb

/-! ## Claim C4 -/

/-- C4: For every list of n messages, the chunking step splits it into
ceil(n/10) batches (0 batches for n = 0), each of length at most 10, such
that concatenating the batches in order yields the original list. -/
theorem sliceBatches_spec (messages : List Value) :
    (sliceBatches messages).length = (messages.length + 9) / 10 ∧
    (∀ b ∈ sliceBatches messages, b.length ≤ 10) ∧
    (sliceBatches messages).flatten = messages :=
  ⟨sliceGo_length le_rfl, fun b hb => sliceGo_batch_le b hb, sliceGo_join le_rfl⟩

/-- Witness for C4: the first slice of a 12-message list is one of its
batches and has 10 messages. -/
theorem sliceBatches_spec_witness :
    ((List.replicate 12 Value.vNull).take 10 ∈ sliceBatches (List.replicate 12 Value.vNull)) ∧
    ((List.replicate 12 Value.vNull).take 10).length ≤ 10 :=
  ⟨List.Mem.head _,
   (sliceBatches_spec (List.replicate 12 Value.vNull)).2.1 _ (List.Mem.head _)⟩

/-! ## Helper lemmas: grouping -/

theorem lookupEntry_setEntry (entries : List (String × Value)) (key : String) (val : Value) :
    lookupEntry (setEntry entries key val) key = some val := by
  induction entries with
  | nil => simp [setEntry, lookupEntry]
  | cons p rest ih =>
    obtain ⟨k, v⟩ := p
    by_cases hk : k == key
    · simp [setEntry, hk, lookupEntry, List.find?]
    · simp only [setEntry, hk, if_false]
      simp only [lookupEntry, List.find?, hk]
      exact ih

theorem classifiable_dict {m : Value} (h : classifiable m) :
    ∃ entries, m = .vDict entries := by
  rcases h with h | ⟨hq, ⟨n, hc⟩ | ⟨b, hc⟩⟩
  · cases m <;> simp [knownQT, lookupQT] at h
    exact ⟨_, rfl⟩
  · exact appCount_ok_dict hc
  · exact appCount_ok_dict hc

theorem known_cond {s : String} (hs : s ∈ knownCategories) :
    (s != "" && inGrouped s) = true := by
  simp [knownCategories] at hs
  rcases hs with h | h | h <;> subst h <;> decide

theorem gsize_addToGroup {s : String} (hs : s ∈ knownCategories) (g : Grouped) (m : Value) :
    gsize (addToGroup g s m) = gsize g + 1 := by
  simp [knownCategories] at hs
  rcases hs with h | h | h <;> subst h <;> simp [addToGroup, gsize] <;> omega

theorem groupsTagged_addToGroup {s : String} (hs : s ∈ knownCategories)
    {g : Grouped} {m : Value} (hg : groupsTagged g)
    (hm : lookupQT m = some (.vStr s)) :
    groupsTagged (addToGroup g s m) := by
  obtain ⟨h1, h2, h3⟩ := hg
  simp [knownCategories] at hs
  rcases hs with h | h | h <;> subst h <;>
    refine ⟨?_, ?_, ?_⟩ <;> simp [addToGroup] <;> intro x hx <;>
      first
        | (rcases hx with hx | hx
           · exact (by solve_by_elim) 
           · rw [hx]; exact hm)
        | solve_by_elim

theorem routeLoop_ok {msgs : List Value} (hall : ∀ m ∈ msgs, classifiable m)
    (g : Grouped) (obs : List Obs) :
    ∃ g2 obs2, routeLoop msgs g obs = (.ok g2, obs ++ obs2) ∧
      gsize g2 = gsize g + msgs.length ∧
      (groupsTagged g → groupsTagged g2) := by
  induction msgs generalizing g obs with
  | nil => exact ⟨g, [], by simp [routeLoop], by simp, fun h => h⟩
  | cons m rest ih =>
    obtain ⟨s, hs⟩ := determine_total (hall m (by simp))
    have hmem := determine_ok_mem hs
    obtain ⟨entries, rfl⟩ := classifiable_dict (hall m (by simp))
    have hset : pySet (.vDict entries) "queueType" (.vStr s) =
        .ok (.vDict (setEntry entries "queueType" (.vStr s))) := rfl
    obtain ⟨g2, obs2, heq, hsize, htag⟩ :=
      ih (fun x hx => hall x (by simp [hx]))
        (addToGroup g s (.vDict (setEntry entries "queueType" (.vStr s))))
        (obs ++ [.metricProcessed s])
    refine ⟨g2, [.metricProcessed s] ++ obs2, ?_, ?_, ?_⟩
    · simp only [routeLoop, hs, known_cond hmem, hset, if_true]
      rw [heq, List.append_assoc]
    · rw [hsize, gsize_addToGroup hmem]
      simp
      omega
    · intro hg
      refine htag (groupsTagged_addToGroup hmem hg ?_)
      simp [lookupQT, lookupEntry_setEntry]

theorem routeLoop_no_undet (msgs : List Value) (g : Grouped) (obs : List Obs) :
    obsCount isUndeterminedObs (routeLoop msgs g obs).2 =
      obsCount isUndeterminedObs obs := by
  induction msgs generalizing g obs with
  | nil => simp [routeLoop]
  | cons m rest ih =>
    cases hs : determine_queue_type m with
    | error e => simp [routeLoop, hs]
    | ok s =>
      have hmem := determine_ok_mem hs
      cases hset : pySet m "queueType" (.vStr s) with
      | error e => simp [routeLoop, hs, known_cond hmem, hset]
      | ok tagged =>
        simp only [routeLoop, hs, known_cond hmem, hset, if_true]
        rw [ih]
        simp [obsCount, isUndeterminedObs]

/-! ## Claim C3 -/

/-- C3 counterexample: a one-message list within the claim's scope (the
message has numeric count 75, and its queueType is not a known category)
on which grouping returns no mapping at all: the truthy-list queueType
makes classification raise `TypeError: unhashable type`, which propagates
out of route_messages_by_queue_type. -/
theorem route_unhashable_raises :
    route_messages_by_queue_type
      [.vDict [("queueType", .vList [.vInt 1]), ("applicationCount", .vInt 75)]] =
      (.error (.typeError "unhashable type"), []) ∧
    ∀ g obs, route_messages_by_queue_type
      [.vDict [("queueType", .vList [.vInt 1]), ("applicationCount", .vInt 75)]] ≠
      (.ok g, obs) := by
  constructor
  · rfl
  · intro g obs h
    rw [show route_messages_by_queue_type
        [.vDict [("queueType", .vList [.vInt 1]), ("applicationCount", .vInt 75)]] =
        (.error (.typeError "unhashable type"), ([] : List Obs)) from rfl] at h
    exact Except.noConfusion (congrArg Prod.fst h)

/-- C3 (amended): for every list of n messages, each with a known queueType
or with a numeric count and a queueType value that is not a truthy list or
dict (which would make the membership test raise TypeError), grouping
returns a mapping with exactly the three keys SMALL, MEDIUM, LARGE (the
fixed key set of `Grouped`) whose list lengths sum to n, and every message
placed in category c has had its queueType field set to c. -/
theorem route_messages_spec (msgs : List Value)
    (hall : ∀ m ∈ msgs, classifiable m) :
    ∃ g obs, route_messages_by_queue_type msgs = (.ok g, obs) ∧
      g.small.length + g.medium.length + g.large.length = msgs.length ∧
      (∀ m ∈ g.small, lookupQT m = some (.vStr "SMALL")) ∧
      (∀ m ∈ g.medium, lookupQT m = some (.vStr "MEDIUM")) ∧
      (∀ m ∈ g.large, lookupQT m = some (.vStr "LARGE")) := by
  obtain ⟨g2, obs2, heq, hsize, htag⟩ := routeLoop_ok hall {} []
  obtain ⟨h1, h2, h3⟩ := htag ⟨by simp, by simp, by simp⟩
  exact ⟨g2, obs2, by simpa [route_messages_by_queue_type] using heq,
    by simpa [gsize] using hsize, h1, h2, h3⟩

/-- Witness for C3: grouping one MEDIUM-count message. -/
theorem route_messages_spec_witness :
    ∃ g obs,
      route_messages_by_queue_type [Value.vDict [("applicationCount", .vInt 75)]] =
        (.ok g, obs) ∧
      g.small.length + g.medium.length + g.large.length = 1 ∧
      (∀ m ∈ g.small, lookupQT m = some (.vStr "SMALL")) ∧
      (∀ m ∈ g.medium, lookupQT m = some (.vStr "MEDIUM")) ∧
      (∀ m ∈ g.large, lookupQT m = some (.vStr "LARGE")) :=
  route_messages_spec [Value.vDict [("applicationCount", .vInt 75)]]
    (by
      intro m hm
      simp at hm
      subst hm
      exact Or.inr ⟨rfl, Or.inl ⟨75, rfl⟩⟩)

/-! ## Claim C7 -/

/-- C7 counterexample: classification of a message with a non-numeric
applicationCount and no queueType raises a TypeError; it does not coerce
the count to 0 and classify SMALL, refuting the claim that classification
never fails. -/
theorem determine_nonnumeric_raises :
    determine_queue_type (.vDict [("applicationCount", .vStr "not-a-number")]) =
      .error (.typeError "comparison not supported between these types") ∧
    determine_queue_type (.vDict [("applicationCount", .vStr "not-a-number")]) ≠
      .ok "SMALL" := by
  constructor
  · rfl
  · intro h
    rw [show determine_queue_type (.vDict [("applicationCount", .vStr "not-a-number")]) =
        .error (.typeError "comparison not supported between these types") from rfl] at h
    exact Except.noConfusion h

/-- C7 (amended): whenever classification succeeds it returns one of the
three valid categories, and it succeeds for every message whose queueType
is a known category, or whose queueType value is not a truthy list or dict
(which would make the membership test raise TypeError) and whose resolved
count value is numeric (int or bool); consequently the defensive
undetermined-category branch in grouping is never taken (no
`undetermined_queue_type` error is ever recorded).  Non-numeric counts
raise a TypeError instead of coercing to 0. -/
theorem determine_always_valid_category :
    (∀ m s, determine_queue_type m = .ok s → s ∈ knownCategories) ∧
    (∀ m, classifiable m → ∃ s, determine_queue_type m = .ok s) ∧
    (∀ msgs, obsCount isUndeterminedObs (route_messages_by_queue_type msgs).2 = 0) := by
  refine ⟨fun m s h => determine_ok_mem h, fun m h => determine_total h, fun msgs => ?_⟩
  rw [route_messages_by_queue_type, routeLoop_no_undet]
  simp [obsCount]

/-- Witness for C7: a LARGE-count message classifies successfully into a
known category. -/
theorem determine_always_valid_category_witness :
    "LARGE" ∈ knownCategories ∧
    (∃ s, determine_queue_type (.vDict [("applicationCount", .vInt 300)]) = .ok s) :=
  ⟨determine_always_valid_category.1 (.vDict [("applicationCount", .vInt 300)]) "LARGE" rfl,
   determine_always_valid_category.2.1 (.vDict [("applicationCount", .vInt 300)])
     (Or.inr ⟨rfl, Or.inl ⟨300, rfl⟩⟩)⟩

/-! ## Helper lemmas: dispatch -/

theorem obsCount_append (p : Obs → Bool) (a b : List Obs) :
    obsCount p (a ++ b) = obsCount p a + obsCount p b := by
  simp [obsCount, List.filter_append]

theorem send_obs_counts (sqs : SqsOracle) (b : List Value) (url : String) :
    obsCount isBatchSizeObs (send_to_sqs_batch sqs b url).2 = 0 ∧
    obsCount isTaskFailObs (send_to_sqs_batch sqs b url).2 =
      (if (send_to_sqs_batch sqs b url).1 then 0 else 1) := by
  unfold send_to_sqs_batch
  cases hm : mkEntries b with
  | error e => simp [obsCount, isBatchSizeObs, isTaskFailObs]
  | ok entries =>
    cases ho : sqs url entries with
    | raise => simp [ho, obsCount, isBatchSizeObs, isTaskFailObs]
    | resp failed =>
      cases hf : failed.isEmpty <;>
        simp [ho, hf, obsCount, isBatchSizeObs, isTaskFailObs]

theorem awaitLoop_fst (sqs : SqsOracle) (tmo : TimeoutOracle)
    (subs : List (String × List Value)) (acc : Bool) (obs : List Obs) :
    (awaitLoop sqs tmo subs acc obs).1 = (acc && subs.all (taskOk sqs tmo)) := by
  induction subs generalizing acc obs with
  | nil => simp [awaitLoop]
  | cons sub rest ih =>
    obtain ⟨url, batch⟩ := sub
    by_cases ht : tmo url batch
    · simp [awaitLoop, ht, ih, taskOk]
    · cases hs : (send_to_sqs_batch sqs batch url).1 <;>
        simp [awaitLoop, ht, hs, ih, taskOk, Bool.and_assoc]

theorem awaitLoop_bsCount (sqs : SqsOracle) (tmo : TimeoutOracle)
    (subs : List (String × List Value)) (acc : Bool) (obs : List Obs) :
    obsCount isBatchSizeObs (awaitLoop sqs tmo subs acc obs).2 =
      obsCount isBatchSizeObs obs + subs.countP (taskOk sqs tmo) := by
  induction subs generalizing acc obs with
  | nil => simp [awaitLoop]
  | cons sub rest ih =>
    obtain ⟨url, batch⟩ := sub
    rw [List.countP_cons]
    by_cases ht : tmo url batch
    · simp only [awaitLoop, ht, if_true]
      rw [ih, obsCount_append]
      have h1 : obsCount isBatchSizeObs [Obs.logError, Obs.metricError "concurrent_send_error"] = 0 := rfl
      have h2 : taskOk sqs tmo (url, batch) = false := by simp [taskOk, ht]
      rw [h1, h2]
      simp
    · cases hs : (send_to_sqs_batch sqs batch url).1 with
      | true =>
        simp only [awaitLoop, ht, Bool.false_eq_true, if_false, hs, if_true]
        rw [ih, obsCount_append, obsCount_append]
        have h1 : obsCount isBatchSizeObs [Obs.metricBatchSize batch.length] = 1 := rfl
        have h2 : taskOk sqs tmo (url, batch) = true := by simp [taskOk, ht, hs]
        rw [h1, h2, (send_obs_counts sqs batch url).1]
        simp
        omega
      | false =>
        simp only [awaitLoop, ht, Bool.false_eq_true, if_false, hs]
        rw [ih, obsCount_append]
        have h2 : taskOk sqs tmo (url, batch) = false := by simp [taskOk, ht, hs]
        rw [h2, (send_obs_counts sqs batch url).1]
        simp

theorem awaitLoop_failCount (sqs : SqsOracle) (tmo : TimeoutOracle)
    (subs : List (String × List Value)) (acc : Bool) (obs : List Obs) :
    obsCount isTaskFailObs (awaitLoop sqs tmo subs acc obs).2 =
      obsCount isTaskFailObs obs + subs.countP (fun sub => !taskOk sqs tmo sub) := by
  induction subs generalizing acc obs with
  | nil => simp [awaitLoop]
  | cons sub rest ih =>
    obtain ⟨url, batch⟩ := sub
    rw [List.countP_cons]
    by_cases ht : tmo url batch
    · simp only [awaitLoop, ht, if_true]
      rw [ih, obsCount_append]
      have h1 : obsCount isTaskFailObs [Obs.logError, Obs.metricError "concurrent_send_error"] = 1 := rfl
      have h2 : taskOk sqs tmo (url, batch) = false := by simp [taskOk, ht]
      rw [h1, h2]
      simp
      omega
    · have hsend := (send_obs_counts sqs batch url).2
      cases hs : (send_to_sqs_batch sqs batch url).1 with
      | true =>
        rw [hs, if_pos rfl] at hsend
        simp only [awaitLoop, ht, Bool.false_eq_true, if_false, hs, if_true]
        rw [ih, obsCount_append, obsCount_append, hsend]
        have h1 : obsCount isTaskFailObs [Obs.metricBatchSize batch.length] = 0 := rfl
        have h2 : taskOk sqs tmo (url, batch) = true := by simp [taskOk, ht, hs]
        rw [h1, h2]
        simp
      | false =>
        rw [hs] at hsend
        simp only [Bool.false_eq_true, if_false] at hsend
        simp only [awaitLoop, ht, Bool.false_eq_true, if_false, hs]
        rw [ih, obsCount_append, hsend]
        have h2 : taskOk sqs tmo (url, batch) = false := by simp [taskOk, ht, hs]
        rw [h2]
        simp
        omega

/-! ## Helper lemmas: the handler phases -/

theorem handlerBody_dispatch {decode : String → Except PyError Value}
    {sqs : SqsOracle} {tmo : TimeoutOracle} {event records : Value} {k : Nat}
    {partitions : List (String × Value)} {parsed : List Value}
    {obsP obsR : List Obs} {g : Grouped}
    (h1 : pyGetD event "records" (.vDict []) = .ok records)
    (h2 : pyLen records = .ok k)
    (h3 : pyItems records = .ok partitions)
    (h4 : parseRecords decode partitions = (.ok parsed, obsP))
    (h5 : parsed ≠ [])
    (h6 : route_messages_by_queue_type parsed = (.ok g, obsR)) :
    lambda_handler decode sqs tmo event =
      ({ statusCode := if (send_batches_concurrently sqs tmo g).1 then 200 else 500
         processedMessages := some parsed.length
         queueDistribution := some
           { small := g.small.length
             medium := g.medium.length
             large := g.large.length } },
       ([.logInfo] ++ obsP ++ [.logInfo]) ++ obsR ++ [.logInfo] ++
         (send_batches_concurrently sqs tmo g).2 ++ [.logInfo]) := by
  have h5e : parsed.isEmpty = false := by
    cases parsed with
    | nil => exact absurd rfl h5
    | cons a l => rfl
  unfold lambda_handler handlerBody
  simp only [h1, h2, h3, h4, h5e, h6, Bool.false_eq_true, if_false]

theorem handlerBody_empty {decode : String → Except PyError Value}
    {sqs : SqsOracle} {tmo : TimeoutOracle} {event records : Value} {k : Nat}
    {partitions : List (String × Value)} {obsP : List Obs}
    (h1 : pyGetD event "records" (.vDict []) = .ok records)
    (h2 : pyLen records = .ok k)
    (h3 : pyItems records = .ok partitions)
    (h4 : parseRecords decode partitions = (.ok [], obsP)) :
    lambda_handler decode sqs tmo event =
      ({ statusCode := 200, processedMessages := some 0 },
       ([.logInfo] ++ obsP ++ [.logInfo]) ++ [.logWarning]) := by
  unfold lambda_handler handlerBody
  simp only [h1, h2, h3, h4, List.isEmpty_nil, if_true]

theorem lambda_handler_of_error {decode : String → Except PyError Value}
    {sqs : SqsOracle} {tmo : TimeoutOracle} {event : Value} {e : PyError}
    {obs : List Obs}
    (h : handlerBody decode sqs tmo event = (.error e, obs)) :
    lambda_handler decode sqs tmo event =
      ({ statusCode := 500, error := some e.describe },
       obs ++ [.logError, .metricError "handler_error"]) := by
  unfold lambda_handler
  rw [h]

/-! ## Claim C2 -/

/-- C2: dispatch aggregation returns true iff every submitted batch send
task succeeded (logical AND of all task outcomes, with no fail-fast
short-circuit: every submitted batch is still awaited after a failure —
each successful task still records its batch-size observation and each
failed task its error observation, whatever the other outcomes); and when
at least one batch fails, the handler's response has failure status (500)
while processedMessages still equals the number of successfully classified
messages. -/
theorem dispatch_aggregation_spec :
    (∀ (sqs : SqsOracle) (tmo : TimeoutOracle) (g : Grouped),
      ((send_batches_concurrently sqs tmo g).1 = true ↔
        ∀ sub ∈ submissions g, taskOk sqs tmo sub = true)) ∧
    (∀ (sqs : SqsOracle) (tmo : TimeoutOracle) (g : Grouped),
      obsCount isBatchSizeObs (send_batches_concurrently sqs tmo g).2 =
        (submissions g).countP (taskOk sqs tmo)) ∧
    (∀ (sqs : SqsOracle) (tmo : TimeoutOracle) (g : Grouped),
      obsCount isTaskFailObs (send_batches_concurrently sqs tmo g).2 =
        (submissions g).countP (fun sub => !taskOk sqs tmo sub)) ∧
    (∀ (decode : String → Except PyError Value) (sqs : SqsOracle)
        (tmo : TimeoutOracle) (event records : Value) (k : Nat)
        (partitions : List (String × Value)) (parsed : List Value)
        (obsP obsR : List Obs) (g : Grouped),
      pyGetD event "records" (.vDict []) = .ok records →
      pyLen records = .ok k →
      pyItems records = .ok partitions →
      parseRecords decode partitions = (.ok parsed, obsP) →
      parsed ≠ [] →
      route_messages_by_queue_type parsed = (.ok g, obsR) →
      (send_batches_concurrently sqs tmo g).1 = false →
      (lambda_handler decode sqs tmo event).1.statusCode = 500 ∧
      (lambda_handler decode sqs tmo event).1.processedMessages =
        some parsed.length) := by
  refine ⟨?_, ?_, ?_, ?_⟩
  · intro sqs tmo g
    rw [send_batches_concurrently, awaitLoop_fst]
    simp [List.all_eq_true]
  · intro sqs tmo g
    rw [send_batches_concurrently, awaitLoop_bsCount]
    simp [obsCount]
  · intro sqs tmo g
    rw [send_batches_concurrently, awaitLoop_failCount]
    simp [obsCount]
  · intro decode sqs tmo event records k partitions parsed obsP obsR g
      h1 h2 h3 h4 h5 h6 hfail
    rw [handlerBody_dispatch h1 h2 h3 h4 h5 h6]
    simp [hfail]

/-- Witness for C2: with a collaborator that fails every batch, the one
MEDIUM message still yields processedMessages = 1 with status 500. -/
theorem dispatch_aggregation_spec_witness :
    (lambda_handler decodeFix sqsAllFail tmoNone eventOne).1.statusCode = 500 ∧
    (lambda_handler decodeFix sqsAllFail tmoNone eventOne).1.processedMessages = some 1 :=
  dispatch_aggregation_spec.2.2.2 decodeFix sqsAllFail tmoNone eventOne
    (.vDict [("p-0", .vList [.vDict [("value", .vStr "ENC75")]])]) 1
    [("p-0", .vList [.vDict [("value", .vStr "ENC75")]])]
    [.vDict [("productId", .vInt 123), ("applicationCount", .vInt 75)]]
    [.logDebug, .logDebug] [.metricProcessed "MEDIUM"]
    { small := []
      medium := [.vDict [("productId", .vInt 123), ("applicationCount", .vInt 75),
        ("queueType", .vStr "MEDIUM")]]
      large := [] }
    rfl rfl rfl rfl (by simp) rfl rfl

/-! ## Claim C10 -/

theorem routeLoop_ok_gsize {msgs : List Value} {g : Grouped} {obs : List Obs}
    {g2 : Grouped} {obs2 : List Obs}
    (h : routeLoop msgs g obs = (.ok g2, obs2)) :
    gsize g2 = gsize g + msgs.length := by
  induction msgs generalizing g obs with
  | nil =>
    simp [routeLoop] at h
    rw [← h.1]
    simp
  | cons m rest ih =>
    cases hs : determine_queue_type m with
    | error e =>
      simp only [routeLoop, hs] at h
      exact absurd h (by simp)
    | ok s =>
      have hmem := determine_ok_mem hs
      cases hset : pySet m "queueType" (.vStr s) with
      | error e =>
        simp only [routeLoop, hs, known_cond hmem, if_true, hset] at h
        exact absurd h (by simp)
      | ok tagged =>
        simp only [routeLoop, hs, known_cond hmem, if_true, hset] at h
        rw [ih h, gsize_addToGroup hmem]
        simp
        omega

/-- C10: in every response actually produced by the dispatch phase (at
least one message decoded and grouping completed without raising),
processedMessages equals the sum of the three queueDistribution counts. -/
theorem processed_equals_distribution_sum :
    ∀ (decode : String → Except PyError Value) (sqs : SqsOracle)
      (tmo : TimeoutOracle) (event records : Value) (k : Nat)
      (partitions : List (String × Value)) (parsed : List Value)
      (obsP obsR : List Obs) (g : Grouped),
      pyGetD event "records" (.vDict []) = .ok records →
      pyLen records = .ok k →
      pyItems records = .ok partitions →
      parseRecords decode partitions = (.ok parsed, obsP) →
      parsed ≠ [] →
      route_messages_by_queue_type parsed = (.ok g, obsR) →
      ∃ n dist,
        (lambda_handler decode sqs tmo event).1.processedMessages = some n ∧
        (lambda_handler decode sqs tmo event).1.queueDistribution = some dist ∧
        dist.small + dist.medium + dist.large = n := by
  intro decode sqs tmo event records k partitions parsed obsP obsR g
    h1 h2 h3 h4 h5 h6
  have hsum : gsize g = parsed.length := by
    have hg := routeLoop_ok_gsize
      (show routeLoop parsed {} [] = (.ok g, obsR) from h6)
    simpa [gsize] using hg
  rw [handlerBody_dispatch h1 h2 h3 h4 h5 h6]
  exact ⟨parsed.length, _, rfl, rfl, by simpa [gsize] using hsum⟩

/-- Witness for C10: one decoded MEDIUM message gives
processedMessages = 1 = 0 + 1 + 0. -/
theorem processed_equals_distribution_sum_witness :
    ∃ n dist,
      (lambda_handler decodeFix sqsAllOk tmoNone eventOne).1.processedMessages = some n ∧
      (lambda_handler decodeFix sqsAllOk tmoNone eventOne).1.queueDistribution = some dist ∧
      dist.small + dist.medium + dist.large = n :=
  processed_equals_distribution_sum decodeFix sqsAllOk tmoNone eventOne
    (.vDict [("p-0", .vList [.vDict [("value", .vStr "ENC75")]])]) 1
    [("p-0", .vList [.vDict [("value", .vStr "ENC75")]])]
    [.vDict [("productId", .vInt 123), ("applicationCount", .vInt 75)]]
    [.logDebug, .logDebug] [.metricProcessed "MEDIUM"]
    { small := []
      medium := [.vDict [("productId", .vInt 123), ("applicationCount", .vInt 75),
        ("queueType", .vStr "MEDIUM")]]
      large := [] }
    rfl rfl rfl rfl (by simp) rfl

/-! ## Helper lemmas: decode-phase observations -/

theorem obsCount_zero_of {p : Obs → Bool} {obs : List Obs}
    (h : ∀ o ∈ obs, p o = false) : obsCount p obs = 0 := by
  induction obs with
  | nil => rfl
  | cons a l ih =>
    have ha := h a (by simp)
    simp only [obsCount, List.filter_cons, ha, Bool.false_eq_true, if_false]
    exact ih (fun o ho => h o (by simp [ho]))

theorem parse_obs_mem {decode : String → Except PyError Value} {r : Value} :
    ∀ o ∈ (parse_kafka_message decode r).2, decodeObs o := by
  intro o ho
  unfold parse_kafka_message at ho
  repeat' split at ho
  all_goals simp [decodeObs] at ho ⊢
  all_goals tauto

theorem parseList_obs_mem {decode : String → Except PyError Value}
    {items : List Value} :
    ∀ o ∈ (parseList decode items).2, decodeObs o := by
  induction items with
  | nil => simp [parseList]
  | cons r rest ih =>
    intro o ho
    simp only [parseList, List.mem_append] at ho
    rcases ho with ho | ho
    · exact parse_obs_mem o ho
    · exact ih o ho

theorem parseRecords_obs_mem {decode : String → Except PyError Value}
    {partitions : List (String × Value)} :
    ∀ o ∈ (parseRecords decode partitions).2, decodeObs o := by
  induction partitions with
  | nil => simp [parseRecords]
  | cons p rest ih =>
    obtain ⟨tp, recs⟩ := p
    intro o ho
    rw [parseRecords] at ho
    cases hlen : pyLen recs with
    | error e => rw [hlen] at ho; simp at ho
    | ok n =>
      rw [hlen] at ho
      cases hiter : pyIterate recs with
      | error e =>
        rw [hiter] at ho
        simp at ho
        rw [ho]
        simp [decodeObs]
      | ok items =>
        rw [hiter] at ho
        cases hrest : parseRecords decode rest with
        | mk res obsR =>
          rw [hrest] at ho
          cases res <;>
            (simp at ho
             rcases ho with ho | ho | ho
             · rw [ho]; simp [decodeObs]
             · exact parseList_obs_mem o ho
             · exact ih o (by rw [hrest]; exact ho))

/-! ## Claim C5 -/

/-- C5 counterexample: on an event whose records map is empty, the handler
returns success with processedMessages = 0 but the response carries NO
queueDistribution field at all (router.py line 295 returns only statusCode
and processedMessages), refuting the claimed
queueDistribution {small: 0, medium: 0, large: 0}. -/
theorem empty_input_no_distribution :
    (lambda_handler decodeFix sqsAllOk tmoNone eventEmpty).1.statusCode = 200 ∧
    (lambda_handler decodeFix sqsAllOk tmoNone eventEmpty).1.processedMessages = some 0 ∧
    (lambda_handler decodeFix sqsAllOk tmoNone eventEmpty).1.queueDistribution = none ∧
    (lambda_handler decodeFix sqsAllOk tmoNone eventEmpty).1.queueDistribution ≠
      some { small := 0, medium := 0, large := 0 } := by
  refine ⟨rfl, rfl, rfl, ?_⟩
  intro h
  rw [show (lambda_handler decodeFix sqsAllOk tmoNone eventEmpty).1.queueDistribution =
      none from rfl] at h
  exact Option.noConfusion h

/-- C5 (amended): for every input batch from which zero messages decode
successfully (including the empty batch), the handler short-circuits
without invoking grouping or dispatch — no message-processed, batch-size
or send observation is emitted — and returns a success response with
processedMessages = 0 and no queueDistribution field. -/
theorem empty_decode_short_circuit :
    ∀ (decode : String → Except PyError Value) (sqs : SqsOracle)
      (tmo : TimeoutOracle) (event records : Value) (k : Nat)
      (partitions : List (String × Value)) (obsP : List Obs),
      pyGetD event "records" (.vDict []) = .ok records →
      pyLen records = .ok k →
      pyItems records = .ok partitions →
      parseRecords decode partitions = (.ok [], obsP) →
      (lambda_handler decode sqs tmo event).1 =
        { statusCode := 200, processedMessages := some 0 } ∧
      obsCount isSendObs (lambda_handler decode sqs tmo event).2 = 0 ∧
      obsCount isProcessedObs (lambda_handler decode sqs tmo event).2 = 0 ∧
      obsCount isBatchSizeObs (lambda_handler decode sqs tmo event).2 = 0 := by
  intro decode sqs tmo event records k partitions obsP h1 h2 h3 h4
  rw [handlerBody_empty h1 h2 h3 h4]
  have hobs : ∀ o ∈ obsP, decodeObs o := by
    have := @parseRecords_obs_mem decode partitions
    rw [h4] at this
    exact this
  have hzero : ∀ (p : Obs → Bool), p .logInfo = false → p .logWarning = false →
      p .logDebug = false → p .logError = false → p (.metricError "parse_error") = false →
      obsCount p ([Obs.logInfo] ++ obsP ++ [Obs.logInfo] ++ [Obs.logWarning]) = 0 := by
    intro p hi hw hd he hp
    refine obsCount_zero_of ?_
    intro o ho
    simp at ho
    rcases ho with ho | ho | ho | ho
    · rw [ho]; exact hi
    · rcases hobs o ho with h | h | h | h <;> rw [h] <;> assumption
    · rw [ho]; exact hi
    · rw [ho]; exact hw
  exact ⟨rfl, hzero isSendObs rfl rfl rfl rfl rfl,
    hzero isProcessedObs rfl rfl rfl rfl rfl,
    hzero isBatchSizeObs rfl rfl rfl rfl rfl⟩

/-- Witness for C5 (amended): the empty-records event. -/
theorem empty_decode_short_circuit_witness :
    (lambda_handler decodeFix sqsAllOk tmoNone eventEmpty).1 =
      { statusCode := 200, processedMessages := some 0 } ∧
    obsCount isSendObs (lambda_handler decodeFix sqsAllOk tmoNone eventEmpty).2 = 0 ∧
    obsCount isProcessedObs (lambda_handler decodeFix sqsAllOk tmoNone eventEmpty).2 = 0 ∧
    obsCount isBatchSizeObs (lambda_handler decodeFix sqsAllOk tmoNone eventEmpty).2 = 0 :=
  empty_decode_short_circuit decodeFix sqsAllOk tmoNone eventEmpty
    (.vDict []) 0 [] [] rfl rfl rfl rfl

/-! ## Claim C6 -/

/-- C6 counterexample: a record with an empty value yields no message and
only a warning log — zero routing-error observations, not the claimed
exactly one. -/
theorem empty_value_no_error_observation :
    parse_kafka_message decodeFix (.vDict [("value", .vStr "")]) =
      (none, [Obs.logWarning]) ∧
    obsCount isRoutingErrorObs
      (parse_kafka_message decodeFix (.vDict [("value", .vStr "")])).2 = 0 ∧
    obsCount isRoutingErrorObs
      (parse_kafka_message decodeFix (.vDict [("value", .vStr "")])).2 ≠ 1 := by
  exact ⟨rfl, rfl, by decide⟩

/-- C6 (amended): a record whose value is absent or empty (falsy) yields no
message and exactly one warning observation, with no routing-error metric;
a record whose value is a non-empty string that fails the
base64/UTF-8/JSON decode chain yields no message and exactly one
routing-error observation, tagged parse_error. -/
theorem parse_failure_observations :
    (∀ (decode : String → Except PyError Value) (record v : Value),
      pyGetD record "value" (.vStr "") = .ok v → vTruthy v = false →
      parse_kafka_message decode record = (none, [.logWarning])) ∧
    (∀ (decode : String → Except PyError Value) (record : Value)
        (s : String) (e : PyError),
      pyGetD record "value" (.vStr "") = .ok (.vStr s) → s ≠ "" →
      decode s = .error e →
      parse_kafka_message decode record =
        (none, [.logError, .metricError "parse_error"]) ∧
      obsCount isRoutingErrorObs (parse_kafka_message decode record).2 = 1) := by
  constructor
  · intro decode record v h1 h2
    unfold parse_kafka_message
    rw [h1]
    simp [h2]
  · intro decode record s e h1 h2 h3
    have heq : parse_kafka_message decode record =
        (none, [.logError, .metricError "parse_error"]) := by
      unfold parse_kafka_message
      rw [h1]
      simp [vTruthy, h2, h3]
    exact ⟨heq, by rw [heq]; rfl⟩

/-- Witness for C6 (amended): an empty value and an undecodable value. -/
theorem parse_failure_observations_witness :
    parse_kafka_message decodeFix (.vDict []) = (none, [.logWarning]) ∧
    parse_kafka_message decodeFix (.vDict [("value", .vStr "zzz")]) =
      (none, [.logError, .metricError "parse_error"]) ∧
    obsCount isRoutingErrorObs
      (parse_kafka_message decodeFix (.vDict [("value", .vStr "zzz")])).2 = 1 :=
  ⟨parse_failure_observations.1 decodeFix (.vDict []) (.vStr "") rfl rfl,
   (parse_failure_observations.2 decodeFix (.vDict [("value", .vStr "zzz")])
     "zzz" (.typeError "invalid base64") rfl (by decide) rfl).1,
   (parse_failure_observations.2 decodeFix (.vDict [("value", .vStr "zzz")])
     "zzz" (.typeError "invalid base64") rfl (by decide) rfl).2⟩

/-! ## Claim C9 -/

/-- C9: for an input batch containing a record that decodes to a message
with a non-numeric applicationCount (a string) and no valid queueType,
classification raises (it does not coerce the count to 0), so the entire
invocation returns the top-level failure response with the error's
description and no batch is dispatched for any message of the invocation —
not even for the other, well-formed message. -/
theorem nonnumeric_count_fails_invocation :
    (lambda_handler decodeFix sqsAllOk tmoNone eventMixed).1 =
      { statusCode := 500,
        error := some "comparison not supported between these types" } ∧
    obsCount isSendObs (lambda_handler decodeFix sqsAllOk tmoNone eventMixed).2 = 0 ∧
    obsCount isBatchSizeObs (lambda_handler decodeFix sqsAllOk tmoNone eventMixed).2 = 0 := by
  exact ⟨rfl, rfl, rfl⟩

/-! ## Claim C8 -/

theorem handlerBody_ok_status {decode : String → Except PyError Value}
    {sqs : SqsOracle} {tmo : TimeoutOracle} {event : Value} {r : Response}
    {obs : List Obs}
    (h : handlerBody decode sqs tmo event = (.ok r, obs)) :
    r.statusCode = 200 ∨ r.statusCode = 500 := by
  unfold handlerBody at h
  repeat' split at h
  all_goals (try simp_all)
  all_goals (try (obtain ⟨hr, ho⟩ := h))
  all_goals (try (rw [← hr]))
  all_goals (try split)
  all_goals simp

/-- C8: for every input (including malformed top-level input missing the
expected structure), any error raised inside the three pipeline phases is
caught at the top level and converted into a structured failure response
carrying the error's description; the handler never propagates an
unhandled fault — its status code is always 200 or 500. -/
theorem top_level_fault_conversion :
    (∀ (decode : String → Except PyError Value) (sqs : SqsOracle)
        (tmo : TimeoutOracle) (event : Value) (e : PyError) (obs : List Obs),
      handlerBody decode sqs tmo event = (.error e, obs) →
      lambda_handler decode sqs tmo event =
        ({ statusCode := 500, error := some e.describe },
         obs ++ [.logError, .metricError "handler_error"])) ∧
    (∀ (decode : String → Except PyError Value) (sqs : SqsOracle)
        (tmo : TimeoutOracle) (event : Value),
      (lambda_handler decode sqs tmo event).1.statusCode = 200 ∨
      (lambda_handler decode sqs tmo event).1.statusCode = 500) := by
  constructor
  · intro decode sqs tmo event e obs h
    exact lambda_handler_of_error h
  · intro decode sqs tmo event
    cases hb : handlerBody decode sqs tmo event with
    | mk res obs =>
      cases res with
      | error e =>
        rw [lambda_handler_of_error hb]
        right
        rfl
      | ok r =>
        have hst := handlerBody_ok_status hb
        unfold lambda_handler
        rw [hb]
        exact hst

/-- Witness for C8: the malformed top-level input None (the event of the
regression test) is converted to a structured 500 failure response. -/
theorem top_level_fault_conversion_witness :
    lambda_handler decodeFix sqsAllOk tmoNone .vNull =
      ({ statusCode := 500, error := some "object has no attribute get" },
       [.logError, .metricError "handler_error"]) :=
  top_level_fault_conversion.1 decodeFix sqsAllOk tmoNone .vNull
    (.attributeError "object has no attribute get") [] rfl
